import Mathlib

/-!
Verification of the ActiveMQ MCP server's connection registry and
protocol-translation layer.  The JavaScript source is shallowly embedded:
pure string manipulation becomes functions on `List Char` / `String`,
stateful HTTP-issuing methods become explicit state passing over a `World`
record with an oracle `Env` answering each request, and fallible methods
return `Except`.
-/

set_option autoImplicit false

/-! ## String utilities mirroring the JavaScript string methods used -/

/-- First-occurrence removal, the semantics of JavaScript
`String.prototype.replace` with a string pattern and empty replacement. -/
def removeFirstL (pat : List Char) : List Char → List Char
  | [] => []
  | c :: rest =>
    if pat.isPrefixOf (c :: rest) then (c :: rest).drop pat.length
    else c :: removeFirstL pat rest

/-- Substring containment, the semantics of JavaScript `String.prototype.includes`. -/
def containsSubL (pat : List Char) : List Char → Bool
  | [] => pat.isEmpty
  | c :: rest => pat.isPrefixOf (c :: rest) || containsSubL pat rest

/-- Characters strictly before the first occurrence of `pat` (the whole list
when `pat` does not occur); used to model `split(sep)[0]`. -/
def upToFirstL (pat : List Char) : List Char → List Char
  | [] => []
  | c :: rest =>
    if pat.isPrefixOf (c :: rest) then []
    else c :: upToFirstL pat rest

/-- Characters strictly after the first occurrence of `pat`, if any. -/
def afterFirstL (pat : List Char) : List Char → Option (List Char)
  | [] => if pat.isEmpty then some [] else none
  | c :: rest =>
    if pat.isPrefixOf (c :: rest) then some ((c :: rest).drop pat.length)
    else afterFirstL pat rest

def removeFirstStr (pat s : String) : String := ⟨removeFirstL pat.data s.data⟩

def containsStr (pat s : String) : Bool := containsSubL pat.data s.data

def startsWithStr (pat s : String) : Bool := pat.data.isPrefixOf s.data

/-- The value of `key.split(pat)[1].split(',')[0]` in JavaScript for a `key`
containing `pat`: the characters after the first occurrence of `pat`,
truncated at the next occurrence of `pat`, then truncated at the first comma. -/
def splitSecondChunk (pat key : String) : String :=
  match afterFirstL pat.data key.data with
  | some rest => ⟨upToFirstL [','] (upToFirstL pat.data rest)⟩
  | none => ""

/-! ## Destination Resolver (CoreClient.parseDestination / cleanDestinationName) -/

/-- `CoreClient.parseDestination`: strips one of the four recognized
destination prefixes; without a recognized prefix the type defaults to
`queue`.  Returns `(destinationName, destinationType)`. -/
def parseDestination (destination : String) : String × String :=
  if startsWithStr "/queue/" destination then (removeFirstStr "/queue/" destination, "queue")
  else if startsWithStr "/topic/" destination then (removeFirstStr "/topic/" destination, "topic")
  else if startsWithStr "queue/" destination then (removeFirstStr "queue/" destination, "queue")
  else if startsWithStr "topic/" destination then (removeFirstStr "topic/" destination, "topic")
  else (destination, "queue")

/-- `CoreClient.cleanDestinationName`: chained single-occurrence `replace`
calls removing each of the four destination markers once. -/
def cleanDestinationName (destination : String) : String :=
  removeFirstStr "topic/" (removeFirstStr "/topic/"
    (removeFirstStr "queue/" (removeFirstStr "/queue/" destination)))

theorem removeFirstL_of_not_contains (pat : List Char) (s : List Char)
    (h : containsSubL pat s = false) : removeFirstL pat s = s := by
  induction s with
  | nil => rfl
  | cons c rest ih =>
    unfold containsSubL at h
    simp only [Bool.or_eq_false_iff] at h
    unfold removeFirstL
    rw [h.1]
    simp [ih h.2]

theorem removeFirstStr_of_not_contains (pat s : String)
    (h : containsStr pat s = false) : removeFirstStr pat s = s := by
  unfold removeFirstStr
  rw [removeFirstL_of_not_contains pat.data s.data h]

example : cleanDestinationName "/queue/orders.priority" = "orders.priority" := by decide
example : cleanDestinationName "queue/aqueue/b" = "aqueue/b" := by decide
example : cleanDestinationName "aqueue/b" = "ab" := by decide

/-! ## JSON-like values and the HTTP boundary

The remote broker answers Jolokia/REST requests with JSON bodies; a request
either yields a response (status, body, headers) or fails the way an axios
error does, carrying an optional HTTP status.  An `Env` is the oracle
answering the `n`-th HTTP request issued by a client. -/

inductive JVal where
  | null
  | str (s : String)
  | num (n : Nat)
  | obj (fields : List (String × JVal))

/-- JavaScript truthiness for the `JVal` fragment we model. -/
def jTruthy : JVal → Bool
  | .null => false
  | .str s => s != ""
  | .num n => n != 0
  | .obj _ => true

def jfield (fields : List (String × JVal)) (name : String) : Option JVal :=
  (fields.find? (fun p => p.fst == name)).map Prod.snd

structure HttpFailure where
  status : Option Nat
  message : String
deriving DecidableEq

structure HttpResponse where
  status : Nat
  data : Option JVal
  headers : List (String × String)

inductive Req where
  | get (path : String)
  | getP (path : String) (params : List (String × String))
  | post (path : String) (form : List (String × String))
deriving DecidableEq

abbrev HttpResult := Except HttpFailure HttpResponse

abbrev Env := Nat → Req → HttpResult

/-- The mutable fields of one `CoreClient` (config host/port, the `connected`
flag and the `_brokerName` cache). -/
structure ClientState where
  host : String
  port : Nat
  connected : Bool
  brokerName : Option String

/-- A client together with its observable interaction history: how many HTTP
requests were issued, the current clock, and the request trace. -/
structure World where
  st : ClientState
  calls : Nat
  time : Nat
  trace : List Req

/-- Issue one HTTP request: consult the oracle and record the request. -/
def issue (env : Env) (w : World) (r : Req) : HttpResult × World :=
  (env w.calls r, { w with calls := w.calls + 1, trace := w.trace ++ [r] })

/-- The value of `response.data?.value || {}`: the `value` field of the body
when the body is an object with a truthy `value`, else an empty object. -/
def valueOrEmpty (resp : HttpResponse) : JVal :=
  match resp.data with
  | none => .obj []
  | some d =>
    match d with
    | .obj fields =>
      match jfield fields "value" with
      | some v => if jTruthy v then v else .obj []
      | none => .obj []
    | _ => .obj []

def objFields : JVal → List (String × JVal)
  | .obj fs => fs
  | _ => []

def objKeys (v : JVal) : List String := (objFields v).map Prod.fst

/-- The value of `data.Field || 0` for a numeric management attribute. -/
def fieldNat (v : JVal) (name : String) : Nat :=
  match jfield (objFields v) name with
  | some (.num n) => n
  | _ => 0

/-- The value of `data.Field || dflt` for a string management attribute. -/
def fieldStr (v : JVal) (name : String) (dflt : String) : String :=
  match jfield (objFields v) name with
  | some (.str s) => if s != "" then s else dflt
  | _ => dflt

/-- The no-message condition shared by consume and browse, literally
`response.status === 204 || !response.data`. -/
def respEmpty (resp : HttpResponse) : Bool :=
  resp.status == 204 ||
    (match resp.data with
     | none => true
     | some v => !jTruthy v)

def notConnectedMsg : String := "Not connected to ActiveMQ broker"

/-! ## Broker identity discovery (CoreClient.getBrokerName) -/

def wildcardBrokerPath : String :=
  "/api/jolokia/read/org.apache.activemq:type=Broker,brokerName=*"

def brokerReadPath (n : String) : String :=
  "/api/jolokia/read/org.apache.activemq:type=Broker,brokerName=" ++ n

def destReadPath (n dtype dname : String) : String :=
  "/api/jolokia/read/org.apache.activemq:type=Broker,brokerName=" ++ n ++
    ",destinationType=" ++ dtype ++ ",destinationName=" ++ dname

def purgeExecPath (n dname : String) : String :=
  "/api/jolokia/exec/org.apache.activemq:type=Broker,brokerName=" ++ n ++
    ",destinationType=Queue,destinationName=" ++ dname ++ "/purge"

def messagePath (dname : String) : String := "/api/message/" ++ dname

/-- The extraction loop over the response keys: the first key containing
`brokerName=` yields `key.split(..)[1].split(..)[0]`. -/
def extractBrokerName : List String → Option String
  | [] => none
  | k :: rest =>
    if containsStr "brokerName=" k then some (splitSecondChunk "brokerName=" k)
    else extractBrokerName rest

/-- `CoreClient.getBrokerName`: return the cached identifier when truthy;
otherwise issue a single wildcard read, extract the identifier from its keys,
fall back to the literal `localhost` (also when the read fails), and cache
the result. -/
def getBrokerName (env : Env) (w : World) : String × World :=
  let cached := w.st.brokerName.getD ""
  if cached != "" then (cached, w)
  else
    let p := issue env w (.get wildcardBrokerPath)
    match p.1 with
    | .ok resp =>
      match extractBrokerName (objKeys (valueOrEmpty resp)) with
      | some n => (n, { p.2 with st := { p.2.st with brokerName := some n } })
      | none =>
        ("localhost", { p.2 with st := { p.2.st with brokerName := some "localhost" } })
    | .error _ =>
      ("localhost", { p.2 with st := { p.2.st with brokerName := some "localhost" } })

/-! ## Queue service (QueueService) -/

structure SendResult where
  success : Bool
  status : Nat
deriving DecidableEq

/-- `QueueService.sendMessage`: guard on the connected flag, parse the
destination, POST the body as form data to the per-destination message
endpoint with the type discriminator, and report `{success, status}`. -/
def sendMessage (env : Env) (w : World) (destination : String) (message : String)
    (headers : List (String × String)) : Except String SendResult × World :=
  if w.st.connected = false then (.error notConnectedMsg, w)
  else
    let pd := parseDestination destination
    let p := issue env w (.post (messagePath pd.1 ++ "?type=" ++ pd.2)
      ([("body", message)] ++ headers))
    match p.1 with
    | .ok resp => (.ok ⟨true, resp.status⟩, p.2)
    | .error e => (.error ("Failed to send message: " ++ e.message), p.2)

structure ConsumeOpts where
  timeout : Option Nat
  clientId : Option String
  selector : Option String

/-- The query-parameter list `consumeMessage` builds: `type` always, and
`timeout` / `clientId` / `selector` only when truthy. -/
def consumeParams (dtype : String) (opts : ConsumeOpts) : List (String × String) :=
  [("type", dtype)]
  ++ (match opts.timeout with
      | some t => if t != 0 then [("timeout", toString t)] else []
      | none => [])
  ++ (match opts.clientId with
      | some c => if c != "" then [("clientId", c)] else []
      | none => [])
  ++ (match opts.selector with
      | some s => if s != "" then [("selector", s)] else []
      | none => [])

structure ConsumedMsg where
  headers : List (String × String)
  body : JVal
  timestamp : Nat
  destinationName : String
  destinationType : String

/-- `QueueService.consumeMessage`: guard, GET from the message endpoint; a
`204` status or empty body yields `null` (`none`); an error whose response
status is `204` also yields `null`; any other failure is re-thrown wrapped. -/
def consumeMessage (env : Env) (w : World) (destination : String)
    (opts : ConsumeOpts) : Except String (Option ConsumedMsg) × World :=
  if w.st.connected = false then (.error notConnectedMsg, w)
  else
    let pd := parseDestination destination
    let p := issue env w (.getP (messagePath pd.1) (consumeParams pd.2 opts))
    match p.1 with
    | .ok resp =>
      if respEmpty resp = true then (.ok none, p.2)
      else
        match resp.data with
        | some v => (.ok (some ⟨resp.headers, v, p.2.time, pd.1, pd.2⟩), p.2)
        | none => (.ok none, p.2)
    | .error e =>
      if e.status = some 204 then (.ok none, p.2)
      else (.error ("Failed to consume message: " ++ e.message), p.2)

structure BMsg where
  headers : List (String × String)
  body : Option JVal
  timestamp : Nat

/-- The browse `while (browsed < limit)` loop: one single-message GET with
the `browse` discriminator per iteration; a `204`/empty response (or an
error carrying status 204) ends the loop, any other error is re-thrown. -/
def browseLoop (env : Env) (name : String) :
    Nat → World → List BMsg → Except String (List BMsg) × World
  | 0, w, messages => (.ok messages, w)
  | fuel + 1, w, messages =>
    let p := issue env w (.getP (messagePath name) [("type", "browse")])
    match p.1 with
    | .ok resp =>
      if respEmpty resp = true then (.ok messages, p.2)
      else browseLoop env name fuel p.2 (messages ++ [⟨resp.headers, resp.data, p.2.time⟩])
    | .error e =>
      if e.status = some 204 then (.ok messages, p.2)
      else (.error ("Failed to browse messages: " ++ e.message), p.2)

/-- `QueueService.browseMessages`: guard, clean the queue name, and run the
bounded browse loop. -/
def browseMessages (env : Env) (w : World) (queueName : String) (limit : Nat) :
    Except String (List BMsg) × World :=
  if w.st.connected = false then (.error notConnectedMsg, w)
  else browseLoop env (cleanDestinationName queueName) limit w []

structure PurgeResult where
  purgedMessages : Nat
deriving DecidableEq

/-- `QueueService.purgeQueue`: guard, clean the name, resolve the broker
identity, invoke the management purge action, and report
`response.data?.value || 0` as the purged count. -/
def purgeQueue (env : Env) (w : World) (queueName : String) :
    Except String PurgeResult × World :=
  if w.st.connected = false then (.error notConnectedMsg, w)
  else
    let cq := cleanDestinationName queueName
    let bn := getBrokerName env w
    let p := issue env bn.2 (.post (purgeExecPath bn.1 cq) [])
    match p.1 with
    | .ok resp =>
      let purged :=
        match resp.data with
        | some (.obj fs) =>
          (match jfield fs "value" with
           | some (.num n) => n
           | _ => 0)
        | _ => 0
      (.ok ⟨purged⟩, p.2)
    | .error e => (.error ("Failed to purge queue: " ++ e.message), p.2)

structure QueueInfo where
  name : String
  size : Nat
  consumerCount : Nat
  enqueueCount : Nat
  dequeueCount : Nat
  memoryUsage : Nat
  memoryLimit : Nat
  errMsg : Option String
deriving DecidableEq

/-- `QueueService.getQueueInfo`: guard, clean the name, resolve the broker
identity and read the queue management object; a failed read degrades to a
zeroed record carrying the error message instead of throwing. -/
def getQueueInfo (env : Env) (w : World) (queueName : String) :
    Except String QueueInfo × World :=
  if w.st.connected = false then (.error notConnectedMsg, w)
  else
    let cq := cleanDestinationName queueName
    let bn := getBrokerName env w
    let p := issue env bn.2 (.get (destReadPath bn.1 "Queue" cq))
    match p.1 with
    | .ok resp =>
      let qd := valueOrEmpty resp
      (.ok ⟨cq, fieldNat qd "QueueSize", fieldNat qd "ConsumerCount",
        fieldNat qd "EnqueueCount", fieldNat qd "DequeueCount",
        fieldNat qd "MemoryUsageByteCount", fieldNat qd "MemoryLimit", none⟩, p.2)
    | .error e => (.ok ⟨queueName, 0, 0, 0, 0, 0, 0, some e.message⟩, p.2)

/-! ## Destination listings (QueueService.listQueues / TopicService.listTopics) -/

structure QueueEntry where
  name : String
  size : Nat
  consumerCount : Nat
  enqueueCount : Nat
  dequeueCount : Nat

structure TopicEntry where
  name : String
  consumerCount : Nat
  enqueueCount : Nat
  dequeueCount : Nat
  subscriptionCount : Nat

/-- The listing parse loop: keep entries whose key names a destination and is
not an advisory destination, extract the name from the key, and require a
truthy name and an object value. -/
def parseQueueEntries (data : JVal) : List QueueEntry :=
  (objFields data).filterMap (fun p =>
    if containsStr "destinationName=" p.fst && !containsStr "ActiveMQ.Advisory" p.fst then
      let nm := splitSecondChunk "destinationName=" p.fst
      if nm != "" then
        match p.snd with
        | .obj _ => some ⟨nm, fieldNat p.snd "QueueSize", fieldNat p.snd "ConsumerCount",
            fieldNat p.snd "EnqueueCount", fieldNat p.snd "DequeueCount"⟩
        | _ => none
      else none
    else none)

def parseTopicEntries (data : JVal) : List TopicEntry :=
  (objFields data).filterMap (fun p =>
    if containsStr "destinationName=" p.fst && !containsStr "ActiveMQ.Advisory" p.fst then
      let nm := splitSecondChunk "destinationName=" p.fst
      if nm != "" then
        match p.snd with
        | .obj _ => some ⟨nm, fieldNat p.snd "ConsumerCount", fieldNat p.snd "EnqueueCount",
            fieldNat p.snd "DequeueCount", fieldNat p.snd "SubscriptionCount"⟩
        | _ => none
      else none
    else none)

/-- `QueueService.listQueues`: guard, then a three-step fallback: wildcard
destination read; on failure a read under the broker name `localhost`; on
failure a wildcard broker read to extract the broker name (else `localhost`)
followed by a read under that name.  Each call runs this chain afresh and
never touches the `_brokerName` cache. -/
def listQueues (env : Env) (w : World) : Except String (List QueueEntry) × World :=
  if w.st.connected = false then (.error notConnectedMsg, w)
  else
    let p1 := issue env w (.get (destReadPath "*" "Queue" "*"))
    match p1.1 with
    | .ok resp => (.ok (parseQueueEntries (valueOrEmpty resp)), p1.2)
    | .error _ =>
      let p2 := issue env p1.2 (.get (destReadPath "localhost" "Queue" "*"))
      match p2.1 with
      | .ok resp => (.ok (parseQueueEntries (valueOrEmpty resp)), p2.2)
      | .error _ =>
        let p3 := issue env p2.2 (.get wildcardBrokerPath)
        match p3.1 with
        | .error e => (.error ("Failed to list queues: " ++ e.message), p3.2)
        | .ok bresp =>
          let bn :=
            match extractBrokerName (objKeys (valueOrEmpty bresp)) with
            | some n => n
            | none => "localhost"
          let p4 := issue env p3.2 (.get (destReadPath bn "Queue" "*"))
          match p4.1 with
          | .ok resp => (.ok (parseQueueEntries (valueOrEmpty resp)), p4.2)
          | .error e => (.error ("Failed to list queues: " ++ e.message), p4.2)

/-- `TopicService.listTopics`: same fallback chain as `listQueues`, against
the topic destination range. -/
def listTopics (env : Env) (w : World) : Except String (List TopicEntry) × World :=
  if w.st.connected = false then (.error notConnectedMsg, w)
  else
    let p1 := issue env w (.get (destReadPath "*" "Topic" "*"))
    match p1.1 with
    | .ok resp => (.ok (parseTopicEntries (valueOrEmpty resp)), p1.2)
    | .error _ =>
      let p2 := issue env p1.2 (.get (destReadPath "localhost" "Topic" "*"))
      match p2.1 with
      | .ok resp => (.ok (parseTopicEntries (valueOrEmpty resp)), p2.2)
      | .error _ =>
        let p3 := issue env p2.2 (.get wildcardBrokerPath)
        match p3.1 with
        | .error e => (.error ("Failed to list topics: " ++ e.message), p3.2)
        | .ok bresp =>
          let bn :=
            match extractBrokerName (objKeys (valueOrEmpty bresp)) with
            | some n => n
            | none => "localhost"
          let p4 := issue env p3.2 (.get (destReadPath bn "Topic" "*"))
          match p4.1 with
          | .ok resp => (.ok (parseTopicEntries (valueOrEmpty resp)), p4.2)
          | .error e => (.error ("Failed to list topics: " ++ e.message), p4.2)

/-! ## Topic service publish and subscribe (TopicService) -/

/-- `TopicService.publishMessage`: guard, clean the topic name, POST form
data with the `topic` type discriminator. -/
def publishMessage (env : Env) (w : World) (topicName : String) (message : String)
    (headers : List (String × String)) : Except String SendResult × World :=
  if w.st.connected = false then (.error notConnectedMsg, w)
  else
    let ct := cleanDestinationName topicName
    let p := issue env w (.post (messagePath ct ++ "?type=topic")
      ([("body", message)] ++ headers))
    match p.1 with
    | .ok resp => (.ok ⟨true, resp.status⟩, p.2)
    | .error e => (.error ("Failed to publish message: " ++ e.message), p.2)

structure SubscribeOpts where
  timeout : Option Nat
  maxMessages : Option Nat

/-- The polling loop of `subscribeToTopic`: while the timeout has not elapsed
and fewer than `maxMessages` messages were collected, sleep one poll interval
and then break as soon as the collected list is empty.  Nothing is ever
appended to `messages`. -/
def subscribePoll (timeout maxMessages : Nat) :
    Nat → Nat → List BMsg → List BMsg
  | 0, _, messages => messages
  | fuel + 1, elapsed, messages =>
    if elapsed < timeout && messages.length < maxMessages then
      if messages.length = 0 then messages
      else subscribePoll timeout maxMessages fuel (elapsed + 1000) messages
    else messages

/-- `TopicService.subscribeToTopic`: a polling-based simulation with NO
connected-state guard; defaults `timeout` to 10000 and `maxMessages` to 1
(`||` semantics), runs the bounded poll loop, and returns the collected
messages. -/
def subscribeToTopic (env : Env) (w : World) (topicName : String)
    (opts : SubscribeOpts) : Except String (List BMsg) × World :=
  let timeout :=
    match opts.timeout with
    | some t => if t != 0 then t else 10000
    | none => 10000
  let maxMessages :=
    match opts.maxMessages with
    | some m => if m != 0 then m else 1
    | none => 1
  (.ok (subscribePoll timeout maxMessages (timeout / 1000 + 1) 0 []), w)

/-! ## Broker service (BrokerService) -/

structure BrokerInfo where
  host : String
  port : Nat
  brokerName : String
  brokerVersion : String
  uptime : Nat
  connected : Bool
  totalConnectionsCount : Nat
  totalConsumerCount : Nat
  totalProducerCount : Nat
  totalEnqueueCount : Nat
  totalDequeueCount : Nat
  totalMessageCount : Nat
  memoryUsage : Nat
  memoryLimit : Nat
  storeUsage : Nat
  storeLimit : Nat
  tempUsage : Nat
  tempLimit : Nat

/-- `BrokerService.getBrokerInfo`: guard, resolve the broker identity, read
the aggregate broker management object, and normalize its counters with
falsy-defaulting. -/
def getBrokerInfo (env : Env) (w : World) : Except String BrokerInfo × World :=
  if w.st.connected = false then (.error notConnectedMsg, w)
  else
    let bn := getBrokerName env w
    let p := issue env bn.2 (.get (brokerReadPath bn.1))
    match p.1 with
    | .ok resp =>
      let bd := valueOrEmpty resp
      (.ok ⟨w.st.host, w.st.port,
        fieldStr bd "BrokerName" "localhost", fieldStr bd "BrokerVersion" "Unknown",
        fieldNat bd "UptimeMillis", p.2.st.connected,
        fieldNat bd "TotalConnectionsCount", fieldNat bd "TotalConsumerCount",
        fieldNat bd "TotalProducerCount", fieldNat bd "TotalEnqueueCount",
        fieldNat bd "TotalDequeueCount", fieldNat bd "TotalMessageCount",
        fieldNat bd "MemoryUsage", fieldNat bd "MemoryLimit",
        fieldNat bd "StoreUsage", fieldNat bd "StoreLimit",
        fieldNat bd "TempUsage", fieldNat bd "TempLimit"⟩, p.2)
    | .error e => (.error ("Failed to get broker info: " ++ e.message), p.2)

/-- `usage/limit` as a rounded percentage, `Math.round((usage/limit)*100)`
when `limit > 0` and `0` otherwise; `(200*u + l) / (2*l)` is the exact
half-up rounding of `(u/l)*100` over the naturals. -/
def usagePct (usage limit : Nat) : Nat :=
  if 0 < limit then (200 * usage + limit) / (2 * limit) else 0

structure HealthInfo where
  status : String
  brokerName : String
  uptime : Nat
  connections : Nat
  consumers : Nat
  producers : Nat
  messages : Nat
  memoryUsagePercentage : Nat
  storeUsagePercentage : Nat
  tempUsagePercentage : Nat
  timestamp : Nat

/-- The two result shapes of `getBrokerHealth`: a health report, or the
`{status: unhealthy, error, timestamp}` record produced by its catch. -/
inductive HealthResult where
  | report (h : HealthInfo)
  | unhealthy (errMsg : String) (timestamp : Nat)

/-- `BrokerService.getBrokerHealth`: guard, fetch broker info, compute the
three usage percentages, and classify against the maximum percentage; a
failure fetching broker info degrades to an `unhealthy` record. -/
def getBrokerHealth (env : Env) (w : World) : Except String HealthResult × World :=
  if w.st.connected = false then (.error notConnectedMsg, w)
  else
    let p := getBrokerInfo env w
    match p.1 with
    | .error e => (.ok (.unhealthy e p.2.time), p.2)
    | .ok info =>
      let mp := usagePct info.memoryUsage info.memoryLimit
      let sp := usagePct info.storeUsage info.storeLimit
      let tp := usagePct info.tempUsage info.tempLimit
      let maxUsage := max (max mp sp) tp
      let status :=
        if maxUsage > 90 then "critical"
        else if maxUsage > 75 then "warning"
        else "healthy"
      (.ok (.report ⟨status, info.brokerName, info.uptime,
        info.totalConnectionsCount, info.totalConsumerCount,
        info.totalProducerCount, info.totalMessageCount,
        mp, sp, tp, p.2.time⟩), p.2)

structure QueueStats where
  count : Nat
  totalMessages : Nat
  totalConsumers : Nat
deriving DecidableEq

structure TopicStats where
  count : Nat
  totalConsumers : Nat
  totalSubscriptions : Nat
deriving DecidableEq

/-- The queue-statistics accumulation loop of `getBrokerStats`. -/
def foldQueueStats (fields : List (String × JVal)) : QueueStats :=
  fields.foldl
    (fun acc p =>
      if containsStr "destinationName=" p.fst && !containsStr "ActiveMQ.Advisory" p.fst then
        ⟨acc.count + 1, acc.totalMessages + fieldNat p.snd "QueueSize",
          acc.totalConsumers + fieldNat p.snd "ConsumerCount"⟩
      else acc)
    ⟨0, 0, 0⟩

/-- The topic-statistics accumulation loop of `getBrokerStats`. -/
def foldTopicStats (fields : List (String × JVal)) : TopicStats :=
  fields.foldl
    (fun acc p =>
      if containsStr "destinationName=" p.fst && !containsStr "ActiveMQ.Advisory" p.fst then
        ⟨acc.count + 1, acc.totalConsumers + fieldNat p.snd "ConsumerCount",
          acc.totalSubscriptions + fieldNat p.snd "SubscriptionCount"⟩
      else acc)
    ⟨0, 0, 0⟩

structure BrokerStats where
  name : String
  version : String
  uptime : Nat
  totalConnections : Nat
  totalConsumers : Nat
  totalProducers : Nat
  totalEnqueued : Nat
  totalDequeued : Nat
  currentMessages : Nat
  queues : QueueStats
  topics : TopicStats
  memUsage : Nat
  memLimit : Nat
  memPct : Nat
  storeUsage : Nat
  storeLimit : Nat
  storePct : Nat
  tempUsage : Nat
  tempLimit : Nat
  tempPct : Nat
  timestamp : Nat

/-- `BrokerService.getBrokerStats`: guard, resolve the broker identity, read
the broker object (failure here is re-thrown wrapped), then read queue and
topic destination ranges, each guarded by an inner catch that degrades to
zeroed statistics. -/
def getBrokerStats (env : Env) (w : World) : Except String BrokerStats × World :=
  if w.st.connected = false then (.error notConnectedMsg, w)
  else
    let bn := getBrokerName env w
    let p := issue env bn.2 (.get (brokerReadPath bn.1))
    match p.1 with
    | .error e => (.error ("Failed to get broker statistics: " ++ e.message), p.2)
    | .ok bresp =>
      let bd := valueOrEmpty bresp
      let pq := issue env p.2 (.get (destReadPath bn.1 "Queue" "*"))
      let queueStats :=
        match pq.1 with
        | .ok qresp => foldQueueStats (objFields (valueOrEmpty qresp))
        | .error _ => (⟨0, 0, 0⟩ : QueueStats)
      let pt := issue env pq.2 (.get (destReadPath bn.1 "Topic" "*"))
      let topicStats :=
        match pt.1 with
        | .ok tresp => foldTopicStats (objFields (valueOrEmpty tresp))
        | .error _ => (⟨0, 0, 0⟩ : TopicStats)
      (.ok ⟨fieldStr bd "BrokerName" "localhost", fieldStr bd "BrokerVersion" "Unknown",
        fieldNat bd "UptimeMillis", fieldNat bd "TotalConnectionsCount",
        fieldNat bd "TotalConsumerCount", fieldNat bd "TotalProducerCount",
        fieldNat bd "TotalEnqueueCount", fieldNat bd "TotalDequeueCount",
        fieldNat bd "TotalMessageCount", queueStats, topicStats,
        fieldNat bd "MemoryUsage", fieldNat bd "MemoryLimit",
        usagePct (fieldNat bd "MemoryUsage") (fieldNat bd "MemoryLimit"),
        fieldNat bd "StoreUsage", fieldNat bd "StoreLimit",
        usagePct (fieldNat bd "StoreUsage") (fieldNat bd "StoreLimit"),
        fieldNat bd "TempUsage", fieldNat bd "TempLimit",
        usagePct (fieldNat bd "TempUsage") (fieldNat bd "TempLimit"),
        pt.2.time⟩, pt.2)

/-! ## Connection registry (ConnectionManager + Connection)

The registry's `Map` from connection id to `Connection` entry is an
association list in insertion order; `Map.set` on a fresh key appends,
`Map.delete` removes the entry.  The per-connection Facade is abstracted to
the outcome of its `connect`/`disconnect` calls, passed in as parameters. -/

structure RegConfig where
  host : String
  port : Nat
  username : Option String
  password : Option String
deriving DecidableEq

structure ConnEntry where
  config : RegConfig
  createdAt : Nat
  healthy : Bool
  connected : Bool
deriving DecidableEq

structure Registry where
  connections : List (String × ConnEntry)
deriving DecidableEq

def lookupConn (r : Registry) (id : String) : Option ConnEntry :=
  (r.connections.find? (fun p => p.fst == id)).map Prod.snd

/-- The distinct throw sites of the registry methods. -/
inductive RegError where
  | invalidId
  | badConfig
  | duplicateId (id : String)
  | notFound (id : String)
  | connectFailed (id : String) (msg : String)
deriving DecidableEq

/-- Observable side effects of a registry operation on the per-connection
Facade. -/
inductive RegEffect where
  | facadeCreated
  | connectCalled
  | disconnectCalled
deriving DecidableEq

structure AddOk where
  connectionId : String
  status : String
  host : String
  port : Nat
deriving DecidableEq

/-- The `CoreClient` constructor validation: a truthy host and a positive
numeric port. -/
def validConfig (cfg : RegConfig) : Bool :=
  cfg.host != "" && cfg.port != 0

/-- `ConnectionManager.addConnection`: reject an empty id, then a duplicate
id, both before constructing a Facade; then construct the Facade (whose
constructor validates the config), call `connect()` (outcome
`connectResult`), and only on success append the new entry. -/
def addConnection (r : Registry) (id : String) (cfg : RegConfig)
    (connectResult : Except String Unit) (now : Nat) :
    Except RegError AddOk × Registry × List RegEffect :=
  if id = "" then (.error .invalidId, r, [])
  else if (lookupConn r id).isSome then (.error (.duplicateId id), r, [])
  else if validConfig cfg = false then (.error .badConfig, r, [])
  else
    match connectResult with
    | .ok _ =>
      (.ok ⟨id, "connected", cfg.host, cfg.port⟩,
        ⟨r.connections ++ [(id, ⟨cfg, now, true, true⟩)]⟩,
        [.facadeCreated, .connectCalled])
    | .error m =>
      (.error (.connectFailed id m), r, [.facadeCreated, .connectCalled])

/-- `Connection.disconnect`: delegate to the Facade and swallow any failure,
reporting `{success, error?}` instead of throwing. -/
def connDisconnect (facadeResult : Except String Unit) : Bool × Option String :=
  match facadeResult with
  | .ok _ => (true, none)
  | .error m => (false, some m)

structure RemoveOk where
  connectionId : String
  status : String
deriving DecidableEq

/-- `ConnectionManager.removeConnection`: throw `notFound` for an unknown id;
otherwise call the connection's (never-throwing) `disconnect`, ignore its
outcome, and delete the entry. -/
def removeConnection (r : Registry) (id : String)
    (facadeDisconnectResult : Except String Unit) :
    Except RegError RemoveOk × Registry × List RegEffect :=
  match lookupConn r id with
  | none => (.error (.notFound id), r, [])
  | some _ =>
    let _ := connDisconnect facadeDisconnectResult
    (.ok ⟨id, "removed"⟩,
      ⟨r.connections.filter (fun p => p.fst != id)⟩,
      [.disconnectCalled])

structure ConnInfo where
  connectionId : String
  host : String
  port : Nat
  connected : Bool
  healthy : Bool
  createdAt : Nat
deriving DecidableEq

/-- `ConnectionManager.listConnections`: the `getConnectionInfo` projection
of every entry, in registry order. -/
def listConnections (r : Registry) : List ConnInfo :=
  r.connections.map (fun p =>
    ⟨p.fst, p.snd.config.host, p.snd.config.port, p.snd.connected,
      p.snd.healthy, p.snd.createdAt⟩)

structure ExportRecord where
  host : String
  port : Nat
  username : Option String
  createdAt : Nat
deriving DecidableEq

/-- `ConnectionManager.exportConnections`: per connection, only host, port,
username and creation time are emitted; the password is deliberately
omitted. -/
def exportConnections (r : Registry) : List (String × ExportRecord) :=
  r.connections.map (fun p =>
    (p.fst, ⟨p.snd.config.host, p.snd.config.port, p.snd.config.username,
      p.snd.createdAt⟩))

/-- Rewrite every stored password by an arbitrary function of the entry;
used to state that exports are insensitive to passwords. -/
def setPasswords (f : String × ConnEntry → Option String) (r : Registry) : Registry :=
  ⟨r.connections.map (fun p =>
    (p.fst, { p.snd with config := { p.snd.config with password := f p } }))⟩

/-- Registry well-formedness: every stored id is a non-empty string.  This is
an invariant of all reachable registries because `addConnection` is the only
way to insert and it rejects empty ids. -/
def Registry.Wf (r : Registry) : Prop :=
  ∀ p ∈ r.connections, p.fst ≠ ""

/-! ## Claim C3: idempotence of the clean-name operation -/

/-- C3 (amended): `cleanDestinationName` is idempotent on every input whose
cleaned form contains no further occurrence of any of the four destination
markers — in particular on all well-formed destinations (an optional single
marker followed by a marker-free name).  It is not idempotent in general,
see the counterexample. -/
theorem cleanDestinationName_idem_on_cleaned (x : String)
    (h1 : containsStr "/queue/" (cleanDestinationName x) = false)
    (h2 : containsStr "queue/" (cleanDestinationName x) = false)
    (h3 : containsStr "/topic/" (cleanDestinationName x) = false)
    (h4 : containsStr "topic/" (cleanDestinationName x) = false) :
    cleanDestinationName (cleanDestinationName x) = cleanDestinationName x :=
  calc cleanDestinationName (cleanDestinationName x)
      = removeFirstStr "topic/" (removeFirstStr "/topic/"
          (removeFirstStr "queue/" (removeFirstStr "/queue/" (cleanDestinationName x)))) := rfl
    _ = cleanDestinationName x := by
        rw [removeFirstStr_of_not_contains _ _ h1, removeFirstStr_of_not_contains _ _ h2,
          removeFirstStr_of_not_contains _ _ h3, removeFirstStr_of_not_contains _ _ h4]

/-- Witness for C3's amended theorem at the well-formed destination
`/queue/orders`. -/
theorem cleanDestinationName_idem_witness :
    containsStr "/queue/" (cleanDestinationName "/queue/orders") = false ∧
    cleanDestinationName (cleanDestinationName "/queue/orders") =
      cleanDestinationName "/queue/orders" :=
  ⟨by decide, cleanDestinationName_idem_on_cleaned "/queue/orders"
    (by decide) (by decide) (by decide) (by decide)⟩

/-- C3 counterexample: on `queue/aqueue/b` one pass yields `aqueue/b` (the
single-occurrence `replace` removes only the leading marker) and a second
pass yields `ab`, so the operation is not idempotent as claimed. -/
theorem cleanDestinationName_not_idem :
    cleanDestinationName (cleanDestinationName "queue/aqueue/b") ≠
      cleanDestinationName "queue/aqueue/b" := by decide

/-! ## Claim C9: exports never depend on passwords -/

/-- C9: the export projection emits only host, port, username and creation
time (the `ExportRecord` type has no password field), so rewriting every
stored password arbitrarily leaves `exportConnections` unchanged: two
registries differing only in passwords export identically. -/
theorem exportConnections_ignores_passwords (r : Registry)
    (f : String × ConnEntry → Option String) :
    exportConnections (setPasswords f r) = exportConnections r := by
  obtain ⟨l⟩ := r
  unfold exportConnections setPasswords
  simp [List.map_map]

/-! ## Claim C10: subscribeToTopic always returns the empty list -/

theorem subscribePoll_nil (t m fuel e : Nat) : subscribePoll t m fuel e [] = [] := by
  cases fuel with
  | zero => rfl
  | succ f => rw [subscribePoll]; split <;> simp

/-- C10: for every oracle, world, topic name and options, the polling loop
of `subscribeToTopic` never appends a message, breaks on its first
iteration, and the operation returns the empty list without error and
without touching the world. -/
theorem subscribeToTopic_returns_empty (env : Env) (w : World) (topicName : String)
    (opts : SubscribeOpts) : subscribeToTopic env w topicName opts = (.ok [], w) := by
  unfold subscribeToTopic
  simp only [subscribePoll_nil]

/-! ## Claim C1: duplicate ids are rejected untouched -/

/-- C1: on a well-formed registry (all stored ids non-empty, an invariant of
every reachable registry), `addConnection` with an already-present id fails
with the duplicate-id error before any Facade is constructed or any network
call is issued (empty effect list), and the registry is returned exactly
unchanged. -/
theorem addConnection_duplicate (r : Registry) (id : String) (cfg : RegConfig)
    (connectResult : Except String Unit) (now : Nat) (c : ConnEntry)
    (hw : r.Wf) (h : lookupConn r id = some c) :
    addConnection r id cfg connectResult now = (.error (.duplicateId id), r, []) := by
  have hid : id ≠ "" := by
    unfold lookupConn at h
    cases hf : r.connections.find? (fun p => p.fst == id) with
    | none => rw [hf] at h; simp at h
    | some p =>
      have hmem := List.mem_of_find?_eq_some hf
      have hpred := List.find?_some hf
      have heq : p.fst = id := by simpa using hpred
      exact heq ▸ hw p hmem
  simp [addConnection, hid, h]

def regA : Registry := ⟨[("a", ⟨⟨"h", 1, none, none⟩, 0, true, true⟩)]⟩

/-- Witness for C1 at a one-entry registry and its stored id. -/
theorem addConnection_duplicate_witness :
    lookupConn regA "a" = some ⟨⟨"h", 1, none, none⟩, 0, true, true⟩ ∧
    addConnection regA "a" ⟨"h", 2, none, none⟩ (.ok ()) 5 =
      (.error (.duplicateId "a"), regA, []) :=
  ⟨rfl, addConnection_duplicate regA "a" ⟨"h", 2, none, none⟩ (.ok ()) 5
    ⟨⟨"h", 1, none, none⟩, 0, true, true⟩
    (show ∀ p ∈ regA.connections, p.fst ≠ "" by decide) rfl⟩

/-! ## Claim C7: removal semantics -/

/-- C7: `removeConnection` on an absent id fails with the not-found error
and leaves the registry exactly unchanged with no disconnect issued; on a
present id the entry is deleted regardless of the Facade disconnect outcome
(which `Connection.disconnect` swallows), so the id resolves to nothing and
is absent from `listConnections` afterward. -/
theorem removeConnection_spec (r : Registry) (id : String)
    (facadeDisconnectResult : Except String Unit) :
    (lookupConn r id = none →
      removeConnection r id facadeDisconnectResult = (.error (.notFound id), r, [])) ∧
    (∀ c, lookupConn r id = some c →
      lookupConn (removeConnection r id facadeDisconnectResult).2.1 id = none ∧
      ∀ info ∈ listConnections (removeConnection r id facadeDisconnectResult).2.1,
        info.connectionId ≠ id) := by
  constructor
  · intro h
    simp [removeConnection, h]
  · intro c h
    have hpost : (removeConnection r id facadeDisconnectResult).2.1 =
        ⟨r.connections.filter (fun p => p.fst != id)⟩ := by
      simp [removeConnection, h]
    refine ⟨?_, ?_⟩
    · rw [hpost]
      unfold lookupConn
      cases hf : (Registry.mk (r.connections.filter (fun p => p.fst != id))).connections.find?
          (fun p => p.fst == id) with
      | none => simp
      | some p =>
        have hmem := List.mem_of_find?_eq_some hf
        have hpred := List.find?_some hf
        simp only [List.mem_filter] at hmem
        have : p.fst = id := by simpa using hpred
        have hne : p.fst ≠ id := by simpa using hmem.2
        exact absurd this hne
    · rw [hpost]
      intro info hinfo
      unfold listConnections at hinfo
      simp only [List.mem_map] at hinfo
      obtain ⟨p, hp, hpe⟩ := hinfo
      simp only [List.mem_filter] at hp
      have hne : p.fst ≠ id := by simpa using hp.2
      rw [← hpe]
      exact hne

def regB : Registry := ⟨[("a", ⟨⟨"h", 1, none, none⟩, 0, true, true⟩),
  ("b", ⟨⟨"h", 2, none, none⟩, 0, true, true⟩)]⟩

/-- Witness for C7: an absent id is rejected with the registry unchanged; a
present id is gone afterward even though the underlying disconnect failed. -/
theorem removeConnection_spec_witness :
    removeConnection regB "missing" (.ok ()) = (.error (.notFound "missing"), regB, []) ∧
    lookupConn (removeConnection regB "a" (.error "socket hangup")).2.1 "a" = none :=
  ⟨(removeConnection_spec regB "missing" (.ok ())).1 rfl,
   ((removeConnection_spec regB "a" (.error "socket hangup")).2
     ⟨⟨"h", 1, none, none⟩, 0, true, true⟩ rfl).1⟩

/-! ## Claim C4: the browse loop is bounded -/

/-- Length of a successful browse result, zero for a thrown error. -/
def okLength : Except String (List BMsg) → Nat
  | .ok l => l.length
  | .error _ => 0

theorem browseLoop_bounded (env : Env) (name : String) :
    ∀ (fuel : Nat) (w : World) (messages : List BMsg),
      okLength (browseLoop env name fuel w messages).1 ≤ messages.length + fuel ∧
      (browseLoop env name fuel w messages).2.calls ≤ w.calls + fuel := by
  intro fuel
  induction fuel with
  | zero =>
    intro w messages
    simp [browseLoop, okLength]
  | succ f ih =>
    intro w messages
    rw [browseLoop]
    simp only [issue]
    cases henv : env w.calls (.getP (messagePath name) [("type", "browse")]) with
    | ok resp =>
      simp only [henv]
      by_cases hre : respEmpty resp = true
      · rw [if_pos hre]
        exact ⟨by simp [okLength], by simp⟩
      · rw [if_neg hre]
        refine ⟨le_trans (ih _ _).1 ?_, le_trans (ih _ _).2 ?_⟩
        · simp; omega
        · simp; omega
    | error e =>
      simp only [henv]
      by_cases hst : e.status = some 204
      · rw [if_pos hst]
        exact ⟨by simp [okLength], by simp⟩
      · rw [if_neg hst]
        exact ⟨by simp [okLength], by simp⟩

/-- C4: for every oracle, world, queue name and limit, `browseMessages`
returns at most `limit` messages (a thrown error counted as zero), and
issues at most `limit` message-fetch requests — so it terminates within
`limit` iterations even against an oracle that always returns a message. -/
theorem browseMessages_bounded (env : Env) (w : World) (queueName : String) (limit : Nat) :
    okLength (browseMessages env w queueName limit).1 ≤ limit ∧
    (browseMessages env w queueName limit).2.calls ≤ w.calls + limit := by
  unfold browseMessages
  by_cases h : w.st.connected = false
  · rw [if_pos h]
    exact ⟨by simp [okLength], by simp⟩
  · rw [if_neg h]
    have := browseLoop_bounded env (cleanDestinationName queueName) limit w []
    simpa using this

/-! ## Claim C6: consume returns null on 204 / empty body -/

/-- An oracle answering every request identically. -/
def constEnv (r : HttpResult) : Env := fun _ _ => r

/-- C6: while connected, a 204 response or an empty-body response makes
`consumeMessage` return a null result (`none`), an error surfaced with
response status 204 likewise returns null, and any other failing response is
re-thrown as a wrapped error. -/
theorem consumeMessage_noMessage (w : World) (h : w.st.connected = true)
    (destination : String) (opts : ConsumeOpts) (st0 : Nat) (d : Option JVal)
    (hs : List (String × String)) (st : Option Nat) (m : String) :
    (consumeMessage (constEnv (.ok ⟨204, d, hs⟩)) w destination opts).1 = .ok none ∧
    (consumeMessage (constEnv (.ok ⟨st0, none, hs⟩)) w destination opts).1 = .ok none ∧
    (consumeMessage (constEnv (.error ⟨some 204, m⟩)) w destination opts).1 = .ok none ∧
    (st ≠ some 204 →
      (consumeMessage (constEnv (.error ⟨st, m⟩)) w destination opts).1 =
        .error ("Failed to consume message: " ++ m)) := by
  refine ⟨?_, ?_, ?_, ?_⟩
  · simp [consumeMessage, h, issue, constEnv, respEmpty]
  · simp [consumeMessage, h, issue, constEnv, respEmpty]
  · simp [consumeMessage, h, issue, constEnv]
  · intro hne
    simp [consumeMessage, h, issue, constEnv, hne]

/-- A connected client world with an empty cache and no history. -/
def wOn : World := ⟨⟨"h", 1, true, none⟩, 0, 0, []⟩

/-- Witness for C6 at a concrete 204 response, a concrete failure carrying
response status 204, and a concrete 500 failure. -/
theorem consumeMessage_noMessage_witness :
    (consumeMessage (constEnv (.ok ⟨204, none, []⟩)) wOn "orders" ⟨none, none, none⟩).1 =
      .ok none ∧
    (consumeMessage (constEnv (.error ⟨some 204, "no content"⟩)) wOn "orders"
      ⟨none, none, none⟩).1 = .ok none ∧
    (consumeMessage (constEnv (.error ⟨some 500, "boom"⟩)) wOn "orders"
      ⟨none, none, none⟩).1 = .error ("Failed to consume message: " ++ "boom") :=
  ⟨(consumeMessage_noMessage wOn rfl "orders" ⟨none, none, none⟩ 200 none []
      (some 500) "no content").1,
   (consumeMessage_noMessage wOn rfl "orders" ⟨none, none, none⟩ 200 none []
      (some 500) "no content").2.2.1,
   (consumeMessage_noMessage wOn rfl "orders" ⟨none, none, none⟩ 200 none []
      (some 500) "boom").2.2.2 (by simp)⟩

/-! ## Claim C5: health percentage computation and classification -/

/-- The classification exactly as the specification words it: `critical` if
any usage percentage exceeds 90, else `warning` if any exceeds 75, else
`healthy`. -/
def specHealthStatus (p1 p2 p3 : Nat) : String :=
  if p1 > 90 ∨ p2 > 90 ∨ p3 > 90 then "critical"
  else if p1 > 75 ∨ p2 > 75 ∨ p3 > 75 then "warning"
  else "healthy"

theorem statusFromMax_eq_spec (a b c : Nat) :
    (if max (max a b) c > 90 then "critical"
     else if max (max a b) c > 75 then "warning"
     else "healthy") = specHealthStatus a b c := by
  unfold specHealthStatus
  split_ifs <;> first | rfl | (exfalso; omega)

def healthStatusOf : Except String HealthResult × World → String
  | (.ok (.report h), _) => h.status
  | (.ok (.unhealthy _ _), _) => "unhealthy"
  | (.error _, _) => "thrown"

def healthPctsOf : Except String HealthResult × World → Nat × Nat × Nat
  | (.ok (.report h), _) =>
    (h.memoryUsagePercentage, h.storeUsagePercentage, h.tempUsagePercentage)
  | _ => (0, 0, 0)

/-- A broker management object carrying exactly the three usage/limit pairs. -/
def brokerObjVal (mu ml su sl tu tl : Nat) : JVal :=
  .obj [("MemoryUsage", .num mu), ("MemoryLimit", .num ml),
    ("StoreUsage", .num su), ("StoreLimit", .num sl),
    ("TempUsage", .num tu), ("TempLimit", .num tl)]

/-- An oracle always answering with the broker object above. -/
def envBroker (mu ml su sl tu tl : Nat) : Env :=
  fun _ _ => .ok ⟨200, some (.obj [("value", brokerObjVal mu ml su sl tu tl)]), []⟩

/-- A connected client world whose broker identity is already cached. -/
def wConn : World := ⟨⟨"localhost", 8161, true, some "localhost"⟩, 0, 0, []⟩

/-- C5: against a broker reporting the given usage/limit pairs,
`getBrokerHealth` reports each percentage as the half-up rounding of
`usage/limit*100` (zero when the limit is zero) and classifies exactly as
the specification's any-threshold rule; the three concrete triples from the
claim classify as critical, warning and healthy respectively. -/
theorem getBrokerHealth_classification (mu ml su sl tu tl : Nat) :
    healthPctsOf (getBrokerHealth (envBroker mu ml su sl tu tl) wConn) =
      (usagePct mu ml, usagePct su sl, usagePct tu tl) ∧
    healthStatusOf (getBrokerHealth (envBroker mu ml su sl tu tl) wConn) =
      specHealthStatus (usagePct mu ml) (usagePct su sl) (usagePct tu tl) ∧
    usagePct 95 100 = 95 ∧ usagePct 80 100 = 80 ∧ usagePct 10 100 = 10 ∧
    usagePct 0 0 = 0 ∧
    healthStatusOf (getBrokerHealth (envBroker 95 100 10 100 10 100) wConn) = "critical" ∧
    healthStatusOf (getBrokerHealth (envBroker 80 100 0 0 0 0) wConn) = "warning" ∧
    healthStatusOf (getBrokerHealth (envBroker 10 100 10 100 10 100) wConn) = "healthy" :=
  ⟨rfl, statusFromMax_eq_spec (usagePct mu ml) (usagePct su sl) (usagePct tu tl),
    rfl, rfl, rfl, rfl, rfl, rfl, rfl⟩

/-! ## Claim C2: operations other than connect/disconnect/testConnection
while unconnected -/

/-- C2 (amended): with the client unconnected, every Broker Endpoint Client /
domain-service operation other than connect, disconnect and testConnection —
EXCEPT `subscribeToTopic` — fails with the `NotConnected` error and performs
no remote call (the world, including the request trace, is returned exactly
unchanged).  `subscribeToTopic` has no connected-state guard: it performs no
remote call either, but succeeds with the empty list instead of failing. -/
theorem notConnected_guard (env : Env) (w : World) (h : w.st.connected = false) :
    (∀ destination message headers,
      sendMessage env w destination message headers = (.error notConnectedMsg, w)) ∧
    (∀ destination opts,
      consumeMessage env w destination opts = (.error notConnectedMsg, w)) ∧
    (∀ queueName limit,
      browseMessages env w queueName limit = (.error notConnectedMsg, w)) ∧
    (∀ queueName, purgeQueue env w queueName = (.error notConnectedMsg, w)) ∧
    (∀ queueName, getQueueInfo env w queueName = (.error notConnectedMsg, w)) ∧
    listQueues env w = (.error notConnectedMsg, w) ∧
    (∀ topicName message headers,
      publishMessage env w topicName message headers = (.error notConnectedMsg, w)) ∧
    listTopics env w = (.error notConnectedMsg, w) ∧
    getBrokerInfo env w = (.error notConnectedMsg, w) ∧
    getBrokerHealth env w = (.error notConnectedMsg, w) ∧
    getBrokerStats env w = (.error notConnectedMsg, w) ∧
    (∀ topicName opts, subscribeToTopic env w topicName opts = (.ok [], w)) := by
  refine ⟨?_, ?_, ?_, ?_, ?_, ?_, ?_, ?_, ?_, ?_, ?_, ?_⟩
  · intro destination message headers; simp [sendMessage, h]
  · intro destination opts; simp [consumeMessage, h]
  · intro queueName limit; simp [browseMessages, h]
  · intro queueName; simp [purgeQueue, h]
  · intro queueName; simp [getQueueInfo, h]
  · simp [listQueues, h]
  · intro topicName message headers; simp [publishMessage, h]
  · simp [listTopics, h]
  · simp [getBrokerInfo, h]
  · simp [getBrokerHealth, h]
  · simp [getBrokerStats, h]
  · intro topicName opts
    unfold subscribeToTopic
    simp only [subscribePoll_nil]

/-- An oracle for an unreachable broker. -/
def envDead : Env := fun _ _ => .error ⟨none, "connection refused"⟩

/-- An unconnected client world. -/
def wOff : World := ⟨⟨"h", 1, false, none⟩, 0, 0, []⟩

/-- Witness for C2's amended theorem at an unconnected world. -/
theorem notConnected_guard_witness :
    sendMessage envDead wOff "orders" "hello" [] = (.error notConnectedMsg, wOff) ∧
    getBrokerInfo envDead wOff = (.error notConnectedMsg, wOff) :=
  ⟨(notConnected_guard envDead wOff rfl).1 "orders" "hello" [],
   (notConnected_guard envDead wOff rfl).2.2.2.2.2.2.2.2.1⟩

/-- C2 counterexample: invoking `subscribeToTopic` while unconnected does
not fail with a `NotConnected` error — it succeeds with the empty list. -/
theorem subscribeToTopic_unconnected_succeeds :
    (subscribeToTopic envDead wOff "events" ⟨none, none⟩).1 = .ok [] ∧
    (subscribeToTopic envDead wOff "events" ⟨none, none⟩).1 ≠
      .error notConnectedMsg := by
  have hres : (subscribeToTopic envDead wOff "events" ⟨none, none⟩).1 = .ok [] := by
    unfold subscribeToTopic
    simp only [subscribePoll_nil]
  exact ⟨hres, by rw [hres]; simp⟩

/-! ## Claim C8: broker identity discovery order and caching -/

def localhostBrokerPath : String := brokerReadPath "localhost"

/-- The discovery procedure exactly as the specification words it (spec-side
definition for refinement comparison): a wildcard-address lookup first; on
failure a lookup under the well-known default identifier `localhost`; on
failure a full registry listing from which the identifier is extracted from
any matching key; else the literal string `localhost`. -/
def discoverySpec (env : Env) (w : World) : String × World :=
  let p1 := issue env w (.get wildcardBrokerPath)
  match p1.1 with
  | .ok resp =>
    ((extractBrokerName (objKeys (valueOrEmpty resp))).getD "localhost", p1.2)
  | .error _ =>
    let p2 := issue env p1.2 (.get localhostBrokerPath)
    match p2.1 with
    | .ok _ => ("localhost", p2.2)
    | .error _ =>
      let p3 := issue env p2.2 (.get wildcardBrokerPath)
      match p3.1 with
      | .ok resp =>
        ((extractBrokerName (objKeys (valueOrEmpty resp))).getD "localhost", p3.2)
      | .error _ => ("localhost", p3.2)

theorem getBrokerName_uncached (env : Env) (w : World)
    (hcache : w.st.brokerName.getD "" = "") :
    (getBrokerName env w).2.trace = w.trace ++ [.get wildcardBrokerPath] ∧
    (getBrokerName env w).2.calls = w.calls + 1 ∧
    (getBrokerName env w).2.st.brokerName = some (getBrokerName env w).1 ∧
    (∀ resp, env w.calls (.get wildcardBrokerPath) = .ok resp →
      (getBrokerName env w).1 =
        (extractBrokerName (objKeys (valueOrEmpty resp))).getD "localhost") ∧
    (∀ e, env w.calls (.get wildcardBrokerPath) = .error e →
      (getBrokerName env w).1 = "localhost") := by
  cases henv : env w.calls (.get wildcardBrokerPath) with
  | ok resp =>
    cases hx : extractBrokerName (objKeys (valueOrEmpty resp)) with
    | some n =>
      refine ⟨?_, ?_, ?_, ?_, ?_⟩ <;>
        simp [getBrokerName, issue, hcache, henv, hx]
    | none =>
      refine ⟨?_, ?_, ?_, ?_, ?_⟩ <;>
        simp [getBrokerName, issue, hcache, henv, hx]
  | error e =>
    refine ⟨?_, ?_, ?_, ?_, ?_⟩ <;>
      simp [getBrokerName, issue, hcache, henv]

theorem getBrokerName_cached (env : Env) (w : World) (n : String)
    (hn : n ≠ "") (hc : w.st.brokerName = some n) :
    getBrokerName env w = (n, w) := by
  simp [getBrokerName, hc, hn]

theorem listTopics_chain (env : Env) (w : World) (hcon : w.st.connected = true) :
    (listTopics env w).2.st = w.st ∧
    ((listTopics env w).2.trace = w.trace ++ [.get (destReadPath "*" "Topic" "*")] ∨
     (listTopics env w).2.trace = w.trace ++ [.get (destReadPath "*" "Topic" "*"),
       .get (destReadPath "localhost" "Topic" "*")] ∨
     (listTopics env w).2.trace = w.trace ++ [.get (destReadPath "*" "Topic" "*"),
       .get (destReadPath "localhost" "Topic" "*"), .get wildcardBrokerPath] ∨
     (∃ n, (listTopics env w).2.trace = w.trace ++ [.get (destReadPath "*" "Topic" "*"),
       .get (destReadPath "localhost" "Topic" "*"), .get wildcardBrokerPath,
       .get (destReadPath n "Topic" "*")])) := by
  cases h1 : env w.calls (.get (destReadPath "*" "Topic" "*")) with
  | ok resp =>
    constructor
    · simp [listTopics, issue, hcon, h1]
    · left; simp [listTopics, issue, hcon, h1]
  | error e1 =>
    cases h2 : env (w.calls + 1) (.get (destReadPath "localhost" "Topic" "*")) with
    | ok resp =>
      constructor
      · simp [listTopics, issue, hcon, h1, h2]
      · right; left; simp [listTopics, issue, hcon, h1, h2]
    | error e2 =>
      cases h3 : env (w.calls + 1 + 1) (.get wildcardBrokerPath) with
      | error e3 =>
        constructor
        · simp [listTopics, issue, hcon, h1, h2, h3]
        · right; right; left; simp [listTopics, issue, hcon, h1, h2, h3]
      | ok bresp =>
        cases h4 : env (w.calls + 1 + 1 + 1)
            (.get (destReadPath
              (match extractBrokerName (objKeys (valueOrEmpty bresp)) with
               | some n => n
               | none => "localhost") "Topic" "*")) with
        | ok resp =>
          constructor
          · simp [listTopics, issue, hcon, h1, h2, h3, h4]
          · right; right; right
            refine ⟨(match extractBrokerName (objKeys (valueOrEmpty bresp)) with
              | some n => n
              | none => "localhost"), ?_⟩
            simp [listTopics, issue, hcon, h1, h2, h3, h4]
        | error e4 =>
          constructor
          · simp [listTopics, issue, hcon, h1, h2, h3, h4]
          · right; right; right
            refine ⟨(match extractBrokerName (objKeys (valueOrEmpty bresp)) with
              | some n => n
              | none => "localhost"), ?_⟩
            simp [listTopics, issue, hcon, h1, h2, h3, h4]

theorem listQueues_chain (env : Env) (w : World) (hcon : w.st.connected = true) :
    (listQueues env w).2.st = w.st ∧
    ((listQueues env w).2.trace = w.trace ++ [.get (destReadPath "*" "Queue" "*")] ∨
     (listQueues env w).2.trace = w.trace ++ [.get (destReadPath "*" "Queue" "*"),
       .get (destReadPath "localhost" "Queue" "*")] ∨
     (listQueues env w).2.trace = w.trace ++ [.get (destReadPath "*" "Queue" "*"),
       .get (destReadPath "localhost" "Queue" "*"), .get wildcardBrokerPath] ∨
     (∃ n, (listQueues env w).2.trace = w.trace ++ [.get (destReadPath "*" "Queue" "*"),
       .get (destReadPath "localhost" "Queue" "*"), .get wildcardBrokerPath,
       .get (destReadPath n "Queue" "*")])) := by
  cases h1 : env w.calls (.get (destReadPath "*" "Queue" "*")) with
  | ok resp =>
    constructor
    · simp [listQueues, issue, hcon, h1]
    · left; simp [listQueues, issue, hcon, h1]
  | error e1 =>
    cases h2 : env (w.calls + 1) (.get (destReadPath "localhost" "Queue" "*")) with
    | ok resp =>
      constructor
      · simp [listQueues, issue, hcon, h1, h2]
      · right; left; simp [listQueues, issue, hcon, h1, h2]
    | error e2 =>
      cases h3 : env (w.calls + 1 + 1) (.get wildcardBrokerPath) with
      | error e3 =>
        constructor
        · simp [listQueues, issue, hcon, h1, h2, h3]
        · right; right; left; simp [listQueues, issue, hcon, h1, h2, h3]
      | ok bresp =>
        cases h4 : env (w.calls + 1 + 1 + 1)
            (.get (destReadPath
              (match extractBrokerName (objKeys (valueOrEmpty bresp)) with
               | some n => n
               | none => "localhost") "Queue" "*")) with
        | ok resp =>
          constructor
          · simp [listQueues, issue, hcon, h1, h2, h3, h4]
          · right; right; right
            refine ⟨(match extractBrokerName (objKeys (valueOrEmpty bresp)) with
              | some n => n
              | none => "localhost"), ?_⟩
            simp [listQueues, issue, hcon, h1, h2, h3, h4]
        | error e4 =>
          constructor
          · simp [listQueues, issue, hcon, h1, h2, h3, h4]
          · right; right; right
            refine ⟨(match extractBrokerName (objKeys (valueOrEmpty bresp)) with
              | some n => n
              | none => "localhost"), ?_⟩
            simp [listQueues, issue, hcon, h1, h2, h3, h4]

/-- C8 (amended): `getBrokerName` — the discovery used by the management
calls (`getBrokerInfo`, `getBrokerHealth`, `getBrokerStats`, `purgeQueue`,
`getQueueInfo`) — issues exactly one wildcard-address read when the cache is
empty; the identifier is extracted from a matching key of the response,
with the literal `localhost` used both when no key matches and when the read
fails (there is no intermediate lookup under `localhost`); the value is
cached and a subsequent call with a truthy cache issues no request at all.
`listTopics` (and `listQueues`) do not use this cache: each call leaves the
client state untouched and runs its own fallback chain in the order
wildcard destination read, destination read under `localhost`, wildcard
broker read followed by a destination read under the extracted name. -/
theorem brokerDiscovery_cached_single_probe :
    (∀ (env : Env) (w : World), w.st.brokerName.getD "" = "" →
      (getBrokerName env w).2.trace = w.trace ++ [.get wildcardBrokerPath] ∧
      (getBrokerName env w).2.calls = w.calls + 1 ∧
      (getBrokerName env w).2.st.brokerName = some (getBrokerName env w).1 ∧
      (∀ resp, env w.calls (.get wildcardBrokerPath) = .ok resp →
        (getBrokerName env w).1 =
          (extractBrokerName (objKeys (valueOrEmpty resp))).getD "localhost") ∧
      (∀ e, env w.calls (.get wildcardBrokerPath) = .error e →
        (getBrokerName env w).1 = "localhost")) ∧
    (∀ (env : Env) (w : World) (n : String), n ≠ "" → w.st.brokerName = some n →
      getBrokerName env w = (n, w)) ∧
    (∀ (env : Env) (w : World), w.st.connected = true →
      (listTopics env w).2.st = w.st ∧
      ((listTopics env w).2.trace = w.trace ++ [.get (destReadPath "*" "Topic" "*")] ∨
       (listTopics env w).2.trace = w.trace ++ [.get (destReadPath "*" "Topic" "*"),
         .get (destReadPath "localhost" "Topic" "*")] ∨
       (listTopics env w).2.trace = w.trace ++ [.get (destReadPath "*" "Topic" "*"),
         .get (destReadPath "localhost" "Topic" "*"), .get wildcardBrokerPath] ∨
       (∃ n, (listTopics env w).2.trace = w.trace ++
         [.get (destReadPath "*" "Topic" "*"),
          .get (destReadPath "localhost" "Topic" "*"), .get wildcardBrokerPath,
          .get (destReadPath n "Topic" "*")]))) ∧
    (∀ (env : Env) (w : World), w.st.connected = true →
      (listQueues env w).2.st = w.st ∧
      ((listQueues env w).2.trace = w.trace ++ [.get (destReadPath "*" "Queue" "*")] ∨
       (listQueues env w).2.trace = w.trace ++ [.get (destReadPath "*" "Queue" "*"),
         .get (destReadPath "localhost" "Queue" "*")] ∨
       (listQueues env w).2.trace = w.trace ++ [.get (destReadPath "*" "Queue" "*"),
         .get (destReadPath "localhost" "Queue" "*"), .get wildcardBrokerPath] ∨
       (∃ n, (listQueues env w).2.trace = w.trace ++
         [.get (destReadPath "*" "Queue" "*"),
          .get (destReadPath "localhost" "Queue" "*"), .get wildcardBrokerPath,
          .get (destReadPath n "Queue" "*")]))) :=
  ⟨fun env w h => getBrokerName_uncached env w h,
   fun env w n hn hc => getBrokerName_cached env w n hn hc,
   fun env w hcon => listTopics_chain env w hcon,
   fun env w hcon => listQueues_chain env w hcon⟩

/-- A connected client world with the broker identity already cached. -/
def wCached : World := ⟨⟨"h", 1, true, some "broker1"⟩, 0, 0, []⟩

/-- Witness for C8's amended theorem: the single wildcard probe of a fresh
client, the request-free cached path, and the cache-independence of
`listTopics` and `listQueues`. -/
theorem brokerDiscovery_witness :
    (getBrokerName envDead wOn).2.trace = [.get wildcardBrokerPath] ∧
    getBrokerName envDead wCached = ("broker1", wCached) ∧
    (listTopics envDead wCached).2.st = wCached.st ∧
    (listQueues envDead wCached).2.st = wCached.st :=
  ⟨by
    have h := (brokerDiscovery_cached_single_probe.1 envDead wOn rfl).1
    simpa using h,
   brokerDiscovery_cached_single_probe.2.1 envDead wCached "broker1" (by simp) rfl,
   (brokerDiscovery_cached_single_probe.2.2.1 envDead wCached rfl).1,
   (brokerDiscovery_cached_single_probe.2.2.2 envDead wCached rfl).1⟩

/-- An oracle whose first request fails and every later request succeeds. -/
def envHalfUp : Env := fun i _ =>
  if i = 0 then .error ⟨none, "refused"⟩
  else .ok ⟨200, some (.obj [("value", .obj [])]), []⟩

/-- C8 counterexample: when the wildcard-address lookup fails, the code's
discovery (`getBrokerName`) falls back directly to the literal `localhost`
after a single request, whereas the specification's discovery procedure
issues a second lookup under the identifier `localhost`: their request
traces differ on a concrete oracle. -/
theorem getBrokerName_skips_localhost_lookup :
    (getBrokerName envHalfUp wOn).2.trace ≠ (discoverySpec envHalfUp wOn).2.trace := by
  decide
